import Mathlib

/-!
Shallow embedding of the Koa integration of an Apollo GraphQL server
(file `packages/apollo-server-koa/src/ApolloServer.ts`), together with
theorems settling the specified routing, content-negotiation and
error-handling properties.

External collaborators (the CORS middleware, body parser, upload
processor, playground renderer, accept-header parser, the GraphQL
execution engine and the error formatter) are modelled as opaque values
or injections: the embedding records exactly what the source code hands
to them and what it does with their results.
-/

namespace ApolloServerKoa

/-- The part of the Koa request context that the routing core reads:
the request path, the HTTP method and the ranked list of acceptable
media types that the external accept-header parser would return for
`accepts(ctx.req).types()`. -/
structure Ctx where
  path : String
  method : String
  acceptTypes : List String
deriving Repr, DecidableEq

/-- Function `middlewareFromPath` from the source: wraps a middleware so that it
runs only when the request path equals the target path by exact string
equality; otherwise the continuation is invoked. The result type is
abstract, standing for the promise/value a Koa middleware returns. -/
def middlewareFromPath {α : Type} (path : String)
    (middleware : Ctx → (Unit → α) → α) :
    Ctx → (Unit → α) → α :=
  fun ctx next =>
    if ctx.path = path then
      middleware ctx next
    else
      next ()

/-- C6: the path-gated wrapper compares the request path to the target by
exact string equality; on a match it returns the inner middleware result,
and on a mismatch the result is exactly the continuation result, for every
inner middleware (so the inner middleware is never executed and there are
no other effects). -/
theorem middlewareFromPath_gating {α : Type} (path : String)
    (middleware : Ctx → (Unit → α) → α) (ctx : Ctx) (next : Unit → α) :
    (ctx.path = path →
      middlewareFromPath path middleware ctx next = middleware ctx next) ∧
    (ctx.path ≠ path →
      middlewareFromPath path middleware ctx next = next ()) := by
  constructor
  · intro h
    simp [middlewareFromPath, h]
  · intro h
    simp [middlewareFromPath, h]

/-- Witness for C6 at a concrete path, middleware and continuation:
matching request returns the inner result, mismatching request returns
the continuation result. -/
theorem middlewareFromPath_gating_witness :
    middlewareFromPath "/graphql" (fun _ _ => (7 : Nat))
      { path := "/graphql", method := "GET", acceptTypes := [] }
      (fun _ => 3) = 7 ∧
    middlewareFromPath "/graphql" (fun _ _ => (7 : Nat))
      { path := "/other", method := "GET", acceptTypes := [] }
      (fun _ => 3) = 3 :=
  ⟨(middlewareFromPath_gating "/graphql" (fun _ _ => (7 : Nat))
      { path := "/graphql", method := "GET", acceptTypes := [] }
      (fun _ => 3)).1 (by decide),
   (middlewareFromPath_gating "/graphql" (fun _ _ => (7 : Nat))
      { path := "/other", method := "GET", acceptTypes := [] }
      (fun _ => 3)).2 (by decide)⟩

/-! ## Playground rendering and the content-negotiating dispatcher -/

/-- The options record handed to the external playground renderer:
`{ endpoint: path, subscriptionEndpoint: this.subscriptionsPath,
...this.playgroundOptions }`. The spread of the configured playground
options is abstracted as an opaque payload of type `π`. -/
structure PGRenderOptions (π : Type) where
  endpoint : String
  subscriptionEndpoint : Option String
  options : π
deriving Repr, DecidableEq

/-- The page produced by the external renderer, modelled as an opaque
injection of the options it was called with. -/
structure RenderedPage (π : Type) where
  options : PGRenderOptions π
deriving Repr, DecidableEq

/-- The `renderPlaygroundPage` collaborator: returns the page for the given
options (opaque injection). -/
def renderPlaygroundPage {π : Type} (o : PGRenderOptions π) : RenderedPage π :=
  ⟨o⟩

/-- The `prefersHTML` computation of the dispatcher, verbatim from the
source: the first entry of the ranked accept list equal to either
`text/html` or `application/json` must be exactly `text/html`
(`types.find(x...) === "text/html"`; an absent match compares unequal). -/
def prefersHTML (types : List String) : Bool :=
  (types.find? fun x => x == "text/html" || x == "application/json")
    == some "text/html"

/-- Outcome of the dispatcher middleware at the execution path: either it
renders the playground page (setting the content type, never calling the
continuation or the engine), or it delegates to the GraphQL execution
engine `graphqlKoa` (which receives the request and the continuation). -/
inductive DispatchEffect (π : Type)
  | playground (contentType : String) (body : RenderedPage π)
  | engine
deriving Repr, DecidableEq

/-- The content-negotiating dispatcher registered at the execution path
(the middleware given to `middlewareFromPath(path, ...)` at the end of
`applyMiddleware`): when playground options are configured, the execution
path equals the playground path and the method is GET, it consults the
accept list; if `prefersHTML` holds it sets content-type `text/html` and
the rendered page as the body and returns; otherwise it delegates to the
execution engine. -/
def graphqlDispatcher {π : Type}
    (playgroundRenderPageOptions : Option (PGRenderOptions π))
    (path playgroundPath : String) (ctx : Ctx) : DispatchEffect π :=
  match playgroundRenderPageOptions with
  | some opts =>
    if path = playgroundPath ∧ ctx.method = "GET" then
      if prefersHTML ctx.acceptTypes then
        .playground "text/html" (renderPlaygroundPage opts)
      else
        .engine
    else
      .engine
  | none => .engine

/-- The unconditional playground handler registered at the playground
path when it differs from the execution path: sets content-type
`text/html` and the rendered page as the body, ignoring method and accept
header, and never calls the continuation (the source handler takes no
`next`). -/
structure ExplorerEffect (π : Type) where
  contentType : String
  body : RenderedPage π
  nextCalled : Bool
deriving Repr, DecidableEq

/-- The handler `(ctx) => { ctx.set("Content-Type", "text/html");
ctx.body = renderPlaygroundPage(playgroundRenderPageOptions); }`. -/
def playgroundHandler {π : Type} (opts : PGRenderOptions π) (_ctx : Ctx) :
    ExplorerEffect π :=
  { contentType := "text/html", body := renderPlaygroundPage opts,
    nextCalled := false }

/-- C1: with playground options configured and execution path equal to
the playground path, a GET request is answered with the rendered
playground page (content-type `text/html`, no delegation) exactly when
the first entry of the accept list matching `text/html` or
`application/json` is `text/html`; in every other case, including a
non-GET method, the dispatcher delegates to the execution engine. -/
theorem graphqlDispatcher_content_negotiation {π : Type}
    (opts : PGRenderOptions π) (path playgroundPath : String) (ctx : Ctx)
    (hpath : path = playgroundPath) :
    (ctx.method = "GET" →
      ((graphqlDispatcher (some opts) path playgroundPath ctx
          = .playground "text/html" (renderPlaygroundPage opts)) ↔
        ctx.acceptTypes.find?
            (fun x => x == "text/html" || x == "application/json")
          = some "text/html") ∧
      (ctx.acceptTypes.find?
            (fun x => x == "text/html" || x == "application/json")
          ≠ some "text/html" →
        graphqlDispatcher (some opts) path playgroundPath ctx = .engine)) ∧
    (ctx.method ≠ "GET" →
      graphqlDispatcher (some opts) path playgroundPath ctx = .engine) := by
  constructor
  · intro hget
    constructor
    · simp [graphqlDispatcher, hpath, hget, prefersHTML]
    · intro hfind
      simp [graphqlDispatcher, hpath, hget, prefersHTML, hfind]
  · intro hne
    simp [graphqlDispatcher, hpath, hne]

/-- Witness for C1: with equal paths, a GET whose accept list ranks
`text/html` first renders the playground, one that ranks
`application/json` first delegates to the engine. -/
theorem graphqlDispatcher_content_negotiation_witness :
    graphqlDispatcher (π := Unit) (some ⟨"/graphql", none, ()⟩)
        "/graphql" "/graphql"
        { path := "/graphql", method := "GET",
          acceptTypes := ["text/html", "application/json"] }
      = .playground "text/html" (renderPlaygroundPage ⟨"/graphql", none, ()⟩) ∧
    graphqlDispatcher (π := Unit) (some ⟨"/graphql", none, ()⟩)
        "/graphql" "/graphql"
        { path := "/graphql", method := "GET",
          acceptTypes := ["application/json", "text/html"] }
      = .engine :=
  ⟨(((graphqlDispatcher_content_negotiation ⟨"/graphql", none, ()⟩
      "/graphql" "/graphql"
      { path := "/graphql", method := "GET",
        acceptTypes := ["text/html", "application/json"] } rfl).1
      rfl).1).mpr (by decide),
   (((graphqlDispatcher_content_negotiation ⟨"/graphql", none, ()⟩
      "/graphql" "/graphql"
      { path := "/graphql", method := "GET",
        acceptTypes := ["application/json", "text/html"] } rfl).1
      rfl).2) (by decide)⟩

/-- C9: when the execution path differs from the playground path, the
dispatcher never renders the playground: every request, for any
playground configuration, method and accept header, is delegated to the
execution engine. -/
theorem graphqlDispatcher_distinct_paths_delegates {π : Type}
    (playgroundRenderPageOptions : Option (PGRenderOptions π))
    (path playgroundPath : String) (ctx : Ctx)
    (h : path ≠ playgroundPath) :
    graphqlDispatcher playgroundRenderPageOptions path playgroundPath ctx
      = .engine := by
  cases playgroundRenderPageOptions with
  | none => simp [graphqlDispatcher]
  | some opts => simp [graphqlDispatcher, h]

/-- Witness for C9: with paths `/graphql` and `/playground`, a GET whose
accept list ranks `text/html` first is still delegated to the engine. -/
theorem graphqlDispatcher_distinct_paths_delegates_witness :
    graphqlDispatcher (π := Unit) (some ⟨"/graphql", none, ()⟩)
        "/graphql" "/playground"
        { path := "/graphql", method := "GET",
          acceptTypes := ["text/html", "application/json"] }
      = .engine :=
  graphqlDispatcher_distinct_paths_delegates (some ⟨"/graphql", none, ()⟩)
    "/graphql" "/playground"
    { path := "/graphql", method := "GET",
      acceptTypes := ["text/html", "application/json"] }
    (by decide)

/-! ## Health check endpoint -/

/-- Body values the health handler assigns. -/
inductive HealthBody
  | pass
  | fail
deriving Repr, DecidableEq

/-- The response effect of the health handler. `status` is the final Koa
response status: Koa answers 200 once a body has been assigned and no
status was set explicitly; the handler sets 503 explicitly on callback
rejection. -/
structure HealthEffect where
  contentType : String
  status : Nat
  body : HealthBody
deriving Repr, DecidableEq

/-- The health-check handler registered at
`/.well-known/apollo/server-health`: sets content-type
`application/health+json`; without a custom callback it assigns the
`pass` body at once; with one, it invokes it and maps success to `pass`
and rejection (modelled as `Except.error`) to status 503 with body
`fail`. The `Except` result type records whether a callback failure
escapes the handler: it never does, so the handler always returns `ok`. -/
def healthCheckHandler {η ε : Type} (onHealthCheck : Option (η → Except ε Unit))
    (ctx : η) : Except ε HealthEffect :=
  match onHealthCheck with
  | some cb =>
    match cb ctx with
    | .ok _ =>
      .ok { contentType := "application/health+json", status := 200,
            body := .pass }
    | .error _ =>
      .ok { contentType := "application/health+json", status := 503,
            body := .fail }
  | none =>
    .ok { contentType := "application/health+json", status := 200,
          body := .pass }

/-- C3: the health handler always sets content-type
`application/health+json`; without a callback it answers 200 `pass`;
whenever the callback rejects, for any error value, it answers 503
`fail`; and no callback failure ever propagates (the result is an `ok`
effect in every case). -/
theorem healthCheckHandler_spec {η ε : Type}
    (onHealthCheck : Option (η → Except ε Unit)) (ctx : η) :
    (∃ eff : HealthEffect,
      healthCheckHandler onHealthCheck ctx = .ok eff ∧
      eff.contentType = "application/health+json") ∧
    (onHealthCheck = none →
      healthCheckHandler onHealthCheck ctx
        = .ok { contentType := "application/health+json", status := 200,
                body := .pass }) ∧
    (∀ (cb : η → Except ε Unit) (e : ε),
      onHealthCheck = some cb → cb ctx = .error e →
      healthCheckHandler onHealthCheck ctx
        = .ok { contentType := "application/health+json", status := 503,
                body := .fail }) := by
  refine ⟨?_, ?_, ?_⟩
  · cases onHealthCheck with
    | none =>
      exact ⟨{ contentType := "application/health+json", status := 200,
               body := .pass }, rfl, rfl⟩
    | some cb =>
      cases h : cb ctx with
      | ok _ =>
        exact ⟨{ contentType := "application/health+json", status := 200,
                 body := .pass }, by simp [healthCheckHandler, h], rfl⟩
      | error _ =>
        exact ⟨{ contentType := "application/health+json", status := 503,
                 body := .fail }, by simp [healthCheckHandler, h], rfl⟩
  · intro h
    subst h
    rfl
  · intro cb e hcb herr
    subst hcb
    simp [healthCheckHandler, herr]

/-- Witness for C3: a callback rejecting with a concrete error yields the
503 `fail` effect wrapped in `ok` (nothing propagates). -/
theorem healthCheckHandler_spec_witness :
    healthCheckHandler (η := Unit) (ε := String)
        (some fun _ => .error "database down") ()
      = .ok { contentType := "application/health+json", status := 503,
              body := .fail } :=
  (healthCheckHandler_spec (η := Unit) (ε := String)
      (some fun _ => .error "database down") ()).2.2
    (fun _ => .error "database down") "database down" rfl rfl

/-! ## Upload interceptor -/

/-- An error raised by the external upload processor, carrying the
optional HTTP `status` and `expose` fields the source inspects, plus an
opaque payload. -/
structure UploadError (ε : Type) where
  status : Option Nat
  expose : Bool
  payload : ε
deriving Repr, DecidableEq

/-- JavaScript truthiness of the optional numeric `error.status`:
`undefined` and `0` are falsy. -/
def jsTruthyNat : Option Nat → Bool
  | none => false
  | some n => n != 0

/-- The value produced by `formatApolloErrors(errors, { formatter,
debug })`, modelled as an opaque record of exactly what the source passes
to the collaborator. -/
structure FormattedErrors (ε φ : Type) where
  errors : List ε
  formatter : Option φ
  debug : Option Bool
deriving Repr, DecidableEq

/-- The slice of `server.requestOptions` the upload middleware reads. -/
structure RequestOptions (φ : Type) where
  formatError : Option φ
  debug : Option Bool
deriving Repr, DecidableEq

/-- The slice of the Koa context the upload middleware touches: the raw
request stream, the current logical request body and any response status
already set. -/
structure UploadCtx (ρ υ : Type) where
  req : ρ
  requestBody : Option υ
  status : Option Nat
deriving Repr, DecidableEq

/-- The effect of one run of the upload middleware. -/
structure UploadEffect (υ ε φ : Type) where
  requestBody : Option υ
  status : Option Nat
  nextCalled : Bool
  thrown : Option (FormattedErrors (UploadError ε) φ)
deriving Repr, DecidableEq

/-- Function `fileUploadMiddleware` from the source. Argument `typeis` models the external
multipart content-type test on the raw request; `processFileUploads`
models the external upload processor, rejecting with an `UploadError`.
On a multipart request whose processing succeeds, the request body is
replaced and the continuation runs; on rejection, the response status is
set when `error.status && error.expose` is truthy, and the error list is
re-wrapped through `formatApolloErrors` with the server formatter and
debug flag and thrown; on a non-multipart request nothing happens but
the continuation. -/
def fileUploadMiddleware {θ ρ υ ε φ : Type} (uploadsConfig : θ)
    (server : RequestOptions φ) (typeis : ρ → Bool)
    (processFileUploads : ρ → θ → Except (UploadError ε) υ)
    (ctx : UploadCtx ρ υ) : UploadEffect υ ε φ :=
  if typeis ctx.req then
    match processFileUploads ctx.req uploadsConfig with
    | .ok body =>
      { requestBody := some body, status := ctx.status, nextCalled := true,
        thrown := none }
    | .error e =>
      { requestBody := ctx.requestBody,
        status := if jsTruthyNat e.status && e.expose then e.status
                  else ctx.status,
        nextCalled := false,
        thrown := some { errors := [e], formatter := server.formatError,
                         debug := server.debug } }
  else
    { requestBody := ctx.requestBody, status := ctx.status,
      nextCalled := true, thrown := none }

/-- C4: on a multipart request whose processing rejects: the response
status is set to the error status exactly when the error carries a
truthy exposable status, and is left untouched otherwise; the thrown
value is always the error re-wrapped through the shared formatter with
the server formatter and debug flag; the request body keeps its
pre-interception value; and the continuation is not called. -/
theorem fileUploadMiddleware_failure {θ ρ υ ε φ : Type}
    (uploadsConfig : θ) (server : RequestOptions φ) (typeis : ρ → Bool)
    (processFileUploads : ρ → θ → Except (UploadError ε) υ)
    (ctx : UploadCtx ρ υ) (e : UploadError ε)
    (hmul : typeis ctx.req = true)
    (herr : processFileUploads ctx.req uploadsConfig = .error e) :
    ((jsTruthyNat e.status && e.expose) = true →
      (fileUploadMiddleware uploadsConfig server typeis processFileUploads
        ctx).status = e.status) ∧
    ((jsTruthyNat e.status && e.expose) = false →
      (fileUploadMiddleware uploadsConfig server typeis processFileUploads
        ctx).status = ctx.status) ∧
    (fileUploadMiddleware uploadsConfig server typeis processFileUploads
        ctx).thrown
      = some { errors := [e], formatter := server.formatError,
               debug := server.debug } ∧
    (fileUploadMiddleware uploadsConfig server typeis processFileUploads
        ctx).requestBody = ctx.requestBody ∧
    (fileUploadMiddleware uploadsConfig server typeis processFileUploads
        ctx).nextCalled = false := by
  have hfx : fileUploadMiddleware uploadsConfig server typeis
      processFileUploads ctx
      = { requestBody := ctx.requestBody,
          status := if jsTruthyNat e.status && e.expose then e.status
                    else ctx.status,
          nextCalled := false,
          thrown := some { errors := [e], formatter := server.formatError,
                           debug := server.debug } } := by
    simp [fileUploadMiddleware, hmul, herr]
  refine ⟨?_, ?_, ?_, ?_, ?_⟩
  · intro h
    rw [hfx]
    simp [h]
  · intro h
    rw [hfx]
    simp [h]
  · rw [hfx]
  · rw [hfx]
  · rw [hfx]

/-- Witness for C4: a processor rejecting with `{status: 422, expose:
true}` yields status 422, the formatted single-error throw with the
server formatter and debug flag, an unchanged request body, and no
continuation call. -/
theorem fileUploadMiddleware_failure_witness :
    (fileUploadMiddleware (θ := Unit) (ρ := Unit) (υ := Nat) (ε := Unit)
        (φ := Unit) () { formatError := none, debug := some false }
        (fun _ => true) (fun _ _ => .error ⟨some 422, true, ()⟩)
        { req := (), requestBody := some 5, status := none }).status
      = some 422 ∧
    (fileUploadMiddleware (θ := Unit) (ρ := Unit) (υ := Nat) (ε := Unit)
        (φ := Unit) () { formatError := none, debug := some false }
        (fun _ => true) (fun _ _ => .error ⟨some 422, true, ()⟩)
        { req := (), requestBody := some 5, status := none }).requestBody
      = some 5 :=
  ⟨((fileUploadMiddleware_failure () { formatError := none, debug := some false }
      (fun _ => true) (fun _ _ => .error ⟨some 422, true, ()⟩)
      { req := (), requestBody := some 5, status := none }
      ⟨some 422, true, ()⟩ rfl rfl).1 rfl),
   ((fileUploadMiddleware_failure () { formatError := none, debug := some false }
      (fun _ => true) (fun _ _ => .error ⟨some 422, true, ()⟩)
      { req := (), requestBody := some 5, status := none }
      ⟨some 422, true, ()⟩ rfl rfl).2.2.2.1)⟩

/-! ## Registration model: `applyMiddleware` -/

/-- Value of the `cors` / `bodyParserConfig` fields of
`ServerRegistration`: the TypeScript domain `boolean | Options |
undefined` (omitting the field yields `undefined`). -/
inductive Setting (α : Type)
  | boolTrue
  | boolFalse
  | omitted
  | opts (o : α)
deriving Repr, DecidableEq

/-- The middleware stages `applyMiddleware` can register, identified by
what the source hands to `app.use`; the CORS and body-parser stages
carry the options forwarded to the external middleware factory (`none`
models a call with no or an undefined argument), and the init gate
carries the identity of the startup promise it awaits. -/
inductive StageKind (χ β : Type)
  | initGate (promiseWillStart : Nat)
  | healthCheck
  | cors (options : Option χ)
  | bodyParser (options : Option β)
  | uploads
  | dispatcher
  | playgroundHandler
deriving Repr, DecidableEq

/-- The stage kinds with payloads erased, for ordering statements. -/
inductive StageTag
  | initGate
  | healthCheck
  | cors
  | bodyParser
  | uploads
  | dispatcher
  | playgroundHandler
deriving Repr, DecidableEq

/-- Erase a stage kind to its tag. -/
def StageKind.tag {χ β : Type} : StageKind χ β → StageTag
  | .initGate _ => .initGate
  | .healthCheck => .healthCheck
  | .cors _ => .cors
  | .bodyParser _ => .bodyParser
  | .uploads => .uploads
  | .dispatcher => .dispatcher
  | .playgroundHandler => .playgroundHandler

/-- One registration made on the host app: every stage the source
registers is `app.use(middlewareFromPath(gatePath, inner))`, so a
registration records the path handed to the path gate together with the
wrapped stage. -/
structure Registered (χ β : Type) where
  gatePath : String
  kind : StageKind χ β
deriving Repr, DecidableEq

/-- The mutable world during registration: the Koa app with its ordered
middleware list (`app.use` appends), and the number of times the server
base-class startup routine `this.willStart()` has been invoked. A
startup promise is identified by the index of the invocation returning
it. -/
structure Host (χ β : Type) where
  middlewares : List (Registered χ β)
  willStartCalls : Nat
deriving Repr, DecidableEq

/-- A fresh Koa app with no middleware and no startup invocation yet. -/
def Host.empty {χ β : Type} : Host χ β :=
  { middlewares := [], willStartCalls := 0 }

/-- Method `app.use(...)`: appends a middleware to the chain. -/
def Host.use {χ β : Type} (app : Host χ β) (r : Registered χ β) :
    Host χ β :=
  { app with middlewares := app.middlewares ++ [r] }

/-- The server-instance state `applyMiddleware` reads:
`this.uploadsConfig`, `this.playgroundOptions` and
`this.subscriptionsPath`. -/
structure ServerState (θ π : Type) where
  uploadsConfig : Option θ
  playgroundOptions : Option π
  subscriptionsPath : Option String
deriving Repr, DecidableEq

/-- The `ServerRegistration` argument of `applyMiddleware` (minus the
app, which is passed separately here). `onHealthCheck` records whether a
custom health callback is supplied; registration itself only closes over
it. -/
structure ServerRegistration (χ β : Type) where
  path : Option String
  playgroundPath : Option String
  cors : Setting χ
  bodyParserConfig : Setting β
  onHealthCheck : Bool
  disableHealthCheck : Bool
deriving Repr, DecidableEq

/-- The default `if (!path) path = defaultValue`: JavaScript falsiness on an optional
string, where both `undefined` and the empty string are falsy. -/
def defaultPath : Option String → String → String
  | none, d => d
  | some s, d => if s = "" then d else s

/-- The registration phase of `applyMiddleware`, transcribed statement by
statement from the source: normalize the two paths; invoke
`this.willStart()` once, capturing its promise; register the init gate at
the execution path; register the health check at its fixed path unless
disabled; register CORS per the `cors === true` / `cors !== false`
branching; register the body parser per the identical branching; register
the upload interceptor when `this.uploadsConfig` is set; register the
content-negotiating dispatcher; and, when playground options are
configured and the paths differ, register the playground-only handler at
the playground path. -/
def applyMiddleware {χ β θ π : Type} (server : ServerState θ π)
    (reg : ServerRegistration χ β) (app : Host χ β) : Host χ β :=
  let path := defaultPath reg.path "/graphql"
  let playgroundPath := defaultPath reg.playgroundPath path
  -- const promiseWillStart = this.willStart();
  let promiseWillStart := app.willStartCalls
  let app := { app with willStartCalls := app.willStartCalls + 1 }
  -- app.use(middlewareFromPath(path, async (_ctx, next) => { await promiseWillStart; return next(); }))
  let app := app.use ⟨path, .initGate promiseWillStart⟩
  -- if (!disableHealthCheck) app.use(middlewareFromPath("/.well-known/apollo/server-health", ...))
  let app :=
    if reg.disableHealthCheck then app
    else app.use ⟨"/.well-known/apollo/server-health", .healthCheck⟩
  -- if (cors === true) ... else if (cors !== false) ...
  let app :=
    match reg.cors with
    | .boolTrue => app.use ⟨path, .cors none⟩
    | .boolFalse => app
    | .omitted => app.use ⟨path, .cors none⟩
    | .opts o => app.use ⟨path, .cors (some o)⟩
  -- if (bodyParserConfig === true) ... else if (bodyParserConfig !== false) ...
  let app :=
    match reg.bodyParserConfig with
    | .boolTrue => app.use ⟨path, .bodyParser none⟩
    | .boolFalse => app
    | .omitted => app.use ⟨path, .bodyParser none⟩
    | .opts o => app.use ⟨path, .bodyParser (some o)⟩
  -- if (uploadsMiddleware) app.use(middlewareFromPath(path, uploadsMiddleware))
  let app :=
    if server.uploadsConfig.isSome then app.use ⟨path, .uploads⟩ else app
  -- app.use(middlewareFromPath(path, (ctx, next) => { ... }))
  let app := app.use ⟨path, .dispatcher⟩
  -- if (playgroundRenderPageOptions && path !== playgroundPath) app.use(...)
  let app :=
    if server.playgroundOptions.isSome ∧ path ≠ playgroundPath then
      app.use ⟨playgroundPath, .playgroundHandler⟩
    else app
  app

/-- The health-check segment of the pipeline: present unless disabled. -/
def healthSegment {χ β : Type} (disableHealthCheck : Bool) :
    List (Registered χ β) :=
  if disableHealthCheck then []
  else [⟨"/.well-known/apollo/server-health", .healthCheck⟩]

/-- The CORS segment of the pipeline, per the `cors === true` /
`cors !== false` branching of the source. -/
def corsSegment {χ β : Type} (path : String) :
    Setting χ → List (Registered χ β)
  | .boolTrue => [⟨path, .cors none⟩]
  | .boolFalse => []
  | .omitted => [⟨path, .cors none⟩]
  | .opts o => [⟨path, .cors (some o)⟩]

/-- The body-parser segment of the pipeline, per the identical
branching. -/
def bodyParserSegment {χ β : Type} (path : String) :
    Setting β → List (Registered χ β)
  | .boolTrue => [⟨path, .bodyParser none⟩]
  | .boolFalse => []
  | .omitted => [⟨path, .bodyParser none⟩]
  | .opts o => [⟨path, .bodyParser (some o)⟩]

/-- The upload-interceptor segment: present when an upload configuration
is set. -/
def uploadsSegment {χ β θ : Type} (path : String) (uploadsConfig : Option θ) :
    List (Registered χ β) :=
  if uploadsConfig.isSome then [⟨path, .uploads⟩] else []

/-- The playground-only-handler segment: present when playground options
are configured and the playground path differs from the execution
path. -/
def playgroundSegment {χ β : Type} (hasPlayground : Bool)
    (path playgroundPath : String) : List (Registered χ β) :=
  if hasPlayground = true ∧ path ≠ playgroundPath then
    [⟨playgroundPath, .playgroundHandler⟩]
  else []

/-- The ordered pipeline of stages registered by one `applyMiddleware`
call, as an explicit concatenation of conditional segments; proved below
to be exactly what `applyMiddleware` appends to the app. -/
def stagesList {χ β θ π : Type} (server : ServerState θ π)
    (reg : ServerRegistration χ β) (promiseWillStart : Nat) :
    List (Registered χ β) :=
  let path := defaultPath reg.path "/graphql"
  let playgroundPath := defaultPath reg.playgroundPath path
  [⟨path, .initGate promiseWillStart⟩]
  ++ healthSegment reg.disableHealthCheck
  ++ corsSegment path reg.cors
  ++ bodyParserSegment path reg.bodyParserConfig
  ++ uploadsSegment path server.uploadsConfig
  ++ [⟨path, .dispatcher⟩]
  ++ playgroundSegment server.playgroundOptions.isSome path playgroundPath

/-- Function `applyMiddleware` only appends to the middleware chain, appends
exactly the `stagesList` pipeline, and bumps the startup-invocation
count by one. -/
theorem applyMiddleware_eq_append {χ β θ π : Type} (server : ServerState θ π)
    (reg : ServerRegistration χ β) (app : Host χ β) :
    applyMiddleware server reg app
      = { middlewares :=
            app.middlewares ++ stagesList server reg app.willStartCalls,
          willStartCalls := app.willStartCalls + 1 } := by
  obtain ⟨p, pgp, cors, bpc, ohc, dhc⟩ := reg
  cases cors <;> cases bpc <;>
    simp only [applyMiddleware, stagesList, healthSegment, corsSegment,
      bodyParserSegment, uploadsSegment, playgroundSegment, Host.use] <;>
    split_ifs <;>
    simp [List.append_assoc]

/-! ## The init gate middleware -/

/-- Events observable in a run of the init-gate middleware: awaiting a
startup promise (identified by the invocation index that produced it),
or the rest of the chain running. -/
inductive GateEvent
  | awaited (promiseWillStart : Nat)
  | rest
deriving Repr, DecidableEq

/-- The gating middleware `async (_ctx, next) => { await
promiseWillStart; return next(); }`: it awaits the promise captured by
closure — never invoking the startup routine itself — and then returns
the continuation result. -/
def initGateMiddleware (promiseWillStart : Nat) :
    Ctx → (Unit → List GateEvent) → List GateEvent :=
  fun _ next => .awaited promiseWillStart :: next ()

/-- C2: `applyMiddleware` invokes the startup routine exactly once (the
invocation count rises by one, at registration time, for every
configuration); the init gate registered at the execution path carries
precisely the promise returned by that single invocation; and on every
request to that path the gate awaits that same promise — producing no
further startup invocation — before the continuation runs. -/
theorem applyMiddleware_willStart_once {χ β θ π : Type}
    (server : ServerState θ π) (reg : ServerRegistration χ β)
    (app : Host χ β) :
    (applyMiddleware server reg app).willStartCalls
      = app.willStartCalls + 1 ∧
    (⟨defaultPath reg.path "/graphql", .initGate app.willStartCalls⟩ :
        Registered χ β) ∈ (applyMiddleware server reg app).middlewares ∧
    (∀ (ctx : Ctx) (next : Unit → List GateEvent),
      ctx.path = defaultPath reg.path "/graphql" →
      middlewareFromPath (defaultPath reg.path "/graphql")
          (initGateMiddleware app.willStartCalls) ctx next
        = .awaited app.willStartCalls :: next ()) := by
  rw [applyMiddleware_eq_append]
  refine ⟨rfl, ?_, ?_⟩
  · simp [stagesList]
  · intro ctx next h
    simp [middlewareFromPath, initGateMiddleware, h]

/-- Witness for C2 on a fresh app: one startup invocation, the gate
registered with promise 0, and a request to `/graphql` awaiting promise
0 before the continuation. -/
theorem applyMiddleware_willStart_once_witness :
    (applyMiddleware (χ := Unit) (β := Unit) (θ := Unit) (π := Unit)
        { uploadsConfig := none, playgroundOptions := none,
          subscriptionsPath := none }
        { path := none, playgroundPath := none, cors := .omitted,
          bodyParserConfig := .omitted, onHealthCheck := false,
          disableHealthCheck := false }
        Host.empty).willStartCalls = 1 ∧
    middlewareFromPath "/graphql" (initGateMiddleware 0)
        { path := "/graphql", method := "GET", acceptTypes := [] }
        (fun _ => [.rest])
      = [.awaited 0, .rest] :=
  ⟨(applyMiddleware_willStart_once (χ := Unit) (β := Unit) (θ := Unit)
      (π := Unit)
      { uploadsConfig := none, playgroundOptions := none,
        subscriptionsPath := none }
      { path := none, playgroundPath := none, cors := .omitted,
        bodyParserConfig := .omitted, onHealthCheck := false,
        disableHealthCheck := false }
      Host.empty).1,
   (applyMiddleware_willStart_once (χ := Unit) (β := Unit) (θ := Unit)
      (π := Unit)
      { uploadsConfig := none, playgroundOptions := none,
        subscriptionsPath := none }
      { path := none, playgroundPath := none, cors := .omitted,
        bodyParserConfig := .omitted, onHealthCheck := false,
        disableHealthCheck := false }
      Host.empty).2.2
     { path := "/graphql", method := "GET", acceptTypes := [] }
     (fun _ => [.rest]) rfl⟩

/-! ## Ordering and policy of the registered pipeline -/

/-- The full canonical order of the pipeline stages. -/
def fullStageOrder : List StageTag :=
  [.initGate, .healthCheck, .cors, .bodyParser, .uploads, .dispatcher,
   .playgroundHandler]

/-- The path each stage kind is gated on: the fixed well-known path for
the health check, the playground path for the playground-only handler,
the execution path for everything else. -/
def expectedGatePath (path playgroundPath : String) : StageTag → String
  | .healthCheck => "/.well-known/apollo/server-health"
  | .playgroundHandler => playgroundPath
  | _ => path

theorem mem_map_tag_healthSegment {χ β : Type} (d : Bool) (t : StageTag) :
    (t ∈ (healthSegment (χ := χ) (β := β) d).map fun r => r.kind.tag) ↔
      (d = false ∧ t = .healthCheck) := by
  cases d <;> simp [healthSegment, StageKind.tag, eq_comm]

theorem mem_map_tag_corsSegment {χ β : Type} (path : String) (s : Setting χ)
    (t : StageTag) :
    (t ∈ (corsSegment (χ := χ) (β := β) path s).map fun r => r.kind.tag) ↔
      (s ≠ .boolFalse ∧ t = .cors) := by
  cases s <;> simp [corsSegment, StageKind.tag, eq_comm]

theorem mem_map_tag_bodyParserSegment {χ β : Type} (path : String)
    (s : Setting β) (t : StageTag) :
    (t ∈ (bodyParserSegment (χ := χ) (β := β) path s).map
        fun r => r.kind.tag) ↔
      (s ≠ .boolFalse ∧ t = .bodyParser) := by
  cases s <;> simp [bodyParserSegment, StageKind.tag, eq_comm]

theorem mem_map_tag_uploadsSegment {χ β θ : Type} (path : String)
    (u : Option θ) (t : StageTag) :
    (t ∈ (uploadsSegment (χ := χ) (β := β) path u).map
        fun r => r.kind.tag) ↔
      (u.isSome = true ∧ t = .uploads) := by
  cases u <;> simp [uploadsSegment, StageKind.tag, eq_comm]

theorem mem_map_tag_playgroundSegment {χ β : Type} (hasPlayground : Bool)
    (path playgroundPath : String) (t : StageTag) :
    (t ∈ (playgroundSegment (χ := χ) (β := β) hasPlayground path
        playgroundPath).map fun r => r.kind.tag) ↔
      (hasPlayground = true ∧ path ≠ playgroundPath ∧
        t = .playgroundHandler) := by
  unfold playgroundSegment
  split <;> simp_all [StageKind.tag, eq_comm]

theorem stagesList_tags_sublist {χ β θ π : Type} (server : ServerState θ π)
    (reg : ServerRegistration χ β) (pid : Nat) :
    List.Sublist ((stagesList server reg pid).map fun r => r.kind.tag)
      fullStageOrder := by
  have hfull : fullStageOrder
      = [StageTag.initGate] ++ [StageTag.healthCheck] ++ [StageTag.cors]
        ++ [StageTag.bodyParser] ++ [StageTag.uploads]
        ++ [StageTag.dispatcher] ++ [StageTag.playgroundHandler] := rfl
  rw [hfull]
  unfold stagesList
  simp only [List.map_append]
  refine List.Sublist.append (List.Sublist.append (List.Sublist.append
    (List.Sublist.append (List.Sublist.append (List.Sublist.append
      ?_ ?_) ?_) ?_) ?_) ?_) ?_
  · simp [StageKind.tag]
  · cases reg.disableHealthCheck <;> simp [healthSegment, StageKind.tag]
  · cases reg.cors <;> simp [corsSegment, StageKind.tag]
  · cases reg.bodyParserConfig <;> simp [bodyParserSegment, StageKind.tag]
  · cases server.uploadsConfig <;> simp [uploadsSegment, StageKind.tag]
  · simp [StageKind.tag]
  · unfold playgroundSegment
    split <;> simp [StageKind.tag]

theorem gatePath_stagesList {χ β θ π : Type} (server : ServerState θ π)
    (reg : ServerRegistration χ β) (pid : Nat) :
    ∀ r ∈ stagesList server reg pid,
      r.gatePath
        = expectedGatePath (defaultPath reg.path "/graphql")
            (defaultPath reg.playgroundPath (defaultPath reg.path "/graphql"))
            r.kind.tag := by
  intro r hr
  simp only [stagesList, List.mem_append] at hr
  rcases hr with ((((((h | h) | h) | h) | h) | h) | h)
  · simp only [List.mem_singleton] at h
    subst h
    rfl
  · cases hd : reg.disableHealthCheck <;> rw [hd] at h <;>
      simp [healthSegment] at h <;>
      simp [h, expectedGatePath, StageKind.tag]
  · cases hc : reg.cors <;> rw [hc] at h <;> simp [corsSegment] at h <;>
      simp [h, expectedGatePath, StageKind.tag]
  · cases hb : reg.bodyParserConfig <;> rw [hb] at h <;>
      simp [bodyParserSegment] at h <;>
      simp [h, expectedGatePath, StageKind.tag]
  · cases hu : server.uploadsConfig <;> rw [hu] at h <;>
      simp [uploadsSegment] at h <;>
      simp [h, expectedGatePath, StageKind.tag]
  · simp only [List.mem_singleton] at h
    subst h
    rfl
  · unfold playgroundSegment at h
    split at h <;> simp at h <;>
      simp [h, expectedGatePath, StageKind.tag]

/-- C5: on a fresh app, `applyMiddleware` registers exactly the pipeline
`stagesList` — init gate, health check (unless disabled), CORS (per
policy), body parser (per policy), upload interceptor (if configured),
dispatcher, playground-only handler (only when the playground path
differs) — whose stage tags are a sublist of the canonical full order,
with each stage present under exactly its condition, and every stage
gated on its expected path. -/
theorem applyMiddleware_stage_order {χ β θ π : Type}
    (server : ServerState θ π) (reg : ServerRegistration χ β) :
    (applyMiddleware server reg Host.empty).middlewares
      = stagesList server reg 0 ∧
    List.Sublist
      (((applyMiddleware server reg Host.empty).middlewares).map
        fun r => r.kind.tag) fullStageOrder ∧
    StageTag.initGate
      ∈ ((applyMiddleware server reg Host.empty).middlewares).map
          (fun r => r.kind.tag) ∧
    ((StageTag.healthCheck
      ∈ ((applyMiddleware server reg Host.empty).middlewares).map
          (fun r => r.kind.tag)) ↔ reg.disableHealthCheck = false) ∧
    ((StageTag.cors
      ∈ ((applyMiddleware server reg Host.empty).middlewares).map
          (fun r => r.kind.tag)) ↔ reg.cors ≠ .boolFalse) ∧
    ((StageTag.bodyParser
      ∈ ((applyMiddleware server reg Host.empty).middlewares).map
          (fun r => r.kind.tag)) ↔ reg.bodyParserConfig ≠ .boolFalse) ∧
    ((StageTag.uploads
      ∈ ((applyMiddleware server reg Host.empty).middlewares).map
          (fun r => r.kind.tag)) ↔ server.uploadsConfig.isSome = true) ∧
    StageTag.dispatcher
      ∈ ((applyMiddleware server reg Host.empty).middlewares).map
          (fun r => r.kind.tag) ∧
    ((StageTag.playgroundHandler
      ∈ ((applyMiddleware server reg Host.empty).middlewares).map
          (fun r => r.kind.tag)) ↔
      (server.playgroundOptions.isSome = true ∧
        defaultPath reg.path "/graphql"
          ≠ defaultPath reg.playgroundPath
              (defaultPath reg.path "/graphql"))) ∧
    (∀ r ∈ (applyMiddleware server reg Host.empty).middlewares,
      r.gatePath
        = expectedGatePath (defaultPath reg.path "/graphql")
            (defaultPath reg.playgroundPath (defaultPath reg.path "/graphql"))
            r.kind.tag) := by
  have hm : (applyMiddleware server reg Host.empty).middlewares
      = stagesList server reg 0 := by
    rw [applyMiddleware_eq_append]
    simp [Host.empty]
  refine ⟨hm, ?_, ?_, ?_, ?_, ?_, ?_, ?_, ?_, ?_⟩
  · rw [hm]
    exact stagesList_tags_sublist server reg 0
  · rw [hm]
    simp only [stagesList, List.map_append, List.mem_append,
      mem_map_tag_healthSegment, mem_map_tag_corsSegment,
      mem_map_tag_bodyParserSegment, mem_map_tag_uploadsSegment,
      mem_map_tag_playgroundSegment, List.map_cons, List.map_nil,
      List.mem_singleton]
    simp [StageKind.tag]
  · rw [hm]
    simp only [stagesList, List.map_append, List.mem_append,
      mem_map_tag_healthSegment, mem_map_tag_corsSegment,
      mem_map_tag_bodyParserSegment, mem_map_tag_uploadsSegment,
      mem_map_tag_playgroundSegment, List.map_cons, List.map_nil,
      List.mem_singleton]
    simp [StageKind.tag]
  · rw [hm]
    simp only [stagesList, List.map_append, List.mem_append,
      mem_map_tag_healthSegment, mem_map_tag_corsSegment,
      mem_map_tag_bodyParserSegment, mem_map_tag_uploadsSegment,
      mem_map_tag_playgroundSegment, List.map_cons, List.map_nil,
      List.mem_singleton]
    simp [StageKind.tag]
  · rw [hm]
    simp only [stagesList, List.map_append, List.mem_append,
      mem_map_tag_healthSegment, mem_map_tag_corsSegment,
      mem_map_tag_bodyParserSegment, mem_map_tag_uploadsSegment,
      mem_map_tag_playgroundSegment, List.map_cons, List.map_nil,
      List.mem_singleton]
    simp [StageKind.tag]
  · rw [hm]
    simp only [stagesList, List.map_append, List.mem_append,
      mem_map_tag_healthSegment, mem_map_tag_corsSegment,
      mem_map_tag_bodyParserSegment, mem_map_tag_uploadsSegment,
      mem_map_tag_playgroundSegment, List.map_cons, List.map_nil,
      List.mem_singleton]
    simp [StageKind.tag]
  · rw [hm]
    simp only [stagesList, List.map_append, List.mem_append,
      mem_map_tag_healthSegment, mem_map_tag_corsSegment,
      mem_map_tag_bodyParserSegment, mem_map_tag_uploadsSegment,
      mem_map_tag_playgroundSegment, List.map_cons, List.map_nil,
      List.mem_singleton]
    simp [StageKind.tag]
  · rw [hm]
    simp only [stagesList, List.map_append, List.mem_append,
      mem_map_tag_healthSegment, mem_map_tag_corsSegment,
      mem_map_tag_bodyParserSegment, mem_map_tag_uploadsSegment,
      mem_map_tag_playgroundSegment, List.map_cons, List.map_nil,
      List.mem_singleton]
    simp [StageKind.tag]
  · rw [hm]
    exact gatePath_stagesList server reg 0

/-- Witness for C5: a concrete registration with every stage present,
the pipeline equality, and the gate path of the registered
playground-only handler. -/
theorem applyMiddleware_stage_order_witness :
    (applyMiddleware (χ := Unit) (β := Unit) (θ := Unit) (π := Unit)
        { uploadsConfig := some (), playgroundOptions := some (),
          subscriptionsPath := none }
        { path := none, playgroundPath := some "/playground",
          cors := .opts (), bodyParserConfig := .boolTrue,
          onHealthCheck := false, disableHealthCheck := false }
        Host.empty).middlewares
      = stagesList (χ := Unit) (β := Unit) (θ := Unit) (π := Unit)
          ({ uploadsConfig := some (), playgroundOptions := some (),
             subscriptionsPath := none })
          ({ path := none, playgroundPath := some "/playground",
             cors := .opts (), bodyParserConfig := .boolTrue,
             onHealthCheck := false, disableHealthCheck := false }) 0 ∧
    (⟨"/playground", .playgroundHandler⟩ : Registered Unit Unit).gatePath
      = expectedGatePath "/graphql" "/playground"
          (StageKind.playgroundHandler (χ := Unit) (β := Unit)).tag :=
  ⟨(applyMiddleware_stage_order (χ := Unit) (β := Unit) (θ := Unit)
      (π := Unit)
      { uploadsConfig := some (), playgroundOptions := some (),
        subscriptionsPath := none }
      { path := none, playgroundPath := some "/playground",
        cors := .opts (), bodyParserConfig := .boolTrue,
        onHealthCheck := false, disableHealthCheck := false }).1,
   (applyMiddleware_stage_order (χ := Unit) (β := Unit) (θ := Unit)
      (π := Unit)
      { uploadsConfig := some (), playgroundOptions := some (),
        subscriptionsPath := none }
      { path := none, playgroundPath := some "/playground",
        cors := .opts (), bodyParserConfig := .boolTrue,
        onHealthCheck := false, disableHealthCheck := false }).2.2.2.2.2.2.2.2.2
     ⟨"/playground", .playgroundHandler⟩ (by decide)⟩

/-- C7: the CORS and body-parser registrations follow the same
three-way policy: boolean true registers the middleware with default
options (no options argument), boolean false registers no such stage at
all, and an options object registers the middleware with that object
passed through. -/
theorem applyMiddleware_cors_bodyParser_policy {χ β θ π : Type}
    (server : ServerState θ π) (reg : ServerRegistration χ β) :
    (reg.cors = .boolTrue →
      (⟨defaultPath reg.path "/graphql", .cors none⟩ : Registered χ β)
        ∈ (applyMiddleware server reg Host.empty).middlewares) ∧
    (reg.cors = .boolFalse →
      StageTag.cors
        ∉ ((applyMiddleware server reg Host.empty).middlewares).map
            (fun r => r.kind.tag)) ∧
    (∀ o : χ, reg.cors = .opts o →
      (⟨defaultPath reg.path "/graphql", .cors (some o)⟩ : Registered χ β)
        ∈ (applyMiddleware server reg Host.empty).middlewares) ∧
    (reg.bodyParserConfig = .boolTrue →
      (⟨defaultPath reg.path "/graphql", .bodyParser none⟩ : Registered χ β)
        ∈ (applyMiddleware server reg Host.empty).middlewares) ∧
    (reg.bodyParserConfig = .boolFalse →
      StageTag.bodyParser
        ∉ ((applyMiddleware server reg Host.empty).middlewares).map
            (fun r => r.kind.tag)) ∧
    (∀ o : β, reg.bodyParserConfig = .opts o →
      (⟨defaultPath reg.path "/graphql", .bodyParser (some o)⟩ :
          Registered χ β)
        ∈ (applyMiddleware server reg Host.empty).middlewares) := by
  have hm : (applyMiddleware server reg Host.empty).middlewares
      = stagesList server reg 0 := by
    rw [applyMiddleware_eq_append]
    simp [Host.empty]
  refine ⟨?_, ?_, ?_, ?_, ?_, ?_⟩
  · intro h
    rw [hm]
    simp [stagesList, corsSegment, h]
  · intro h
    rw [hm]
    simp only [stagesList, List.map_append, List.mem_append,
      mem_map_tag_healthSegment, mem_map_tag_corsSegment,
      mem_map_tag_bodyParserSegment, mem_map_tag_uploadsSegment,
      mem_map_tag_playgroundSegment, List.map_cons, List.map_nil,
      List.mem_singleton, h]
    simp [StageKind.tag]
  · intro o h
    rw [hm]
    simp [stagesList, corsSegment, h]
  · intro h
    rw [hm]
    simp [stagesList, bodyParserSegment, h]
  · intro h
    rw [hm]
    simp only [stagesList, List.map_append, List.mem_append,
      mem_map_tag_healthSegment, mem_map_tag_corsSegment,
      mem_map_tag_bodyParserSegment, mem_map_tag_uploadsSegment,
      mem_map_tag_playgroundSegment, List.map_cons, List.map_nil,
      List.mem_singleton, h]
    simp [StageKind.tag]
  · intro o h
    rw [hm]
    simp [stagesList, bodyParserSegment, h]

/-- Witness for C7: with `cors` an options object and `bodyParserConfig`
false, the CORS stage carrying that object is registered and no
body-parser stage exists. -/
theorem applyMiddleware_cors_bodyParser_policy_witness :
    (⟨"/graphql", .cors (some 42)⟩ : Registered Nat Unit)
      ∈ (applyMiddleware (χ := Nat) (β := Unit) (θ := Unit) (π := Unit)
          { uploadsConfig := none, playgroundOptions := none,
            subscriptionsPath := none }
          { path := none, playgroundPath := none, cors := .opts 42,
            bodyParserConfig := .boolFalse, onHealthCheck := false,
            disableHealthCheck := false }
          Host.empty).middlewares ∧
    StageTag.bodyParser
      ∉ ((applyMiddleware (χ := Nat) (β := Unit) (θ := Unit) (π := Unit)
          { uploadsConfig := none, playgroundOptions := none,
            subscriptionsPath := none }
          { path := none, playgroundPath := none, cors := .opts 42,
            bodyParserConfig := .boolFalse, onHealthCheck := false,
            disableHealthCheck := false }
          Host.empty).middlewares).map (fun r => r.kind.tag) :=
  ⟨(applyMiddleware_cors_bodyParser_policy (χ := Nat) (β := Unit)
      (θ := Unit) (π := Unit)
      { uploadsConfig := none, playgroundOptions := none,
        subscriptionsPath := none }
      { path := none, playgroundPath := none, cors := .opts 42,
        bodyParserConfig := .boolFalse, onHealthCheck := false,
        disableHealthCheck := false }).2.2.1 42 rfl,
   (applyMiddleware_cors_bodyParser_policy (χ := Nat) (β := Unit)
      (θ := Unit) (π := Unit)
      { uploadsConfig := none, playgroundOptions := none,
        subscriptionsPath := none }
      { path := none, playgroundPath := none, cors := .opts 42,
        bodyParserConfig := .boolFalse, onHealthCheck := false,
        disableHealthCheck := false }).2.2.2.2.1 rfl⟩

/-- C10: an omitted (undefined) `cors` or `bodyParserConfig` still
registers the middleware, with the undefined value passed through as its
options (`none`); and the stage is skipped exactly when the setting is
the boolean false. -/
theorem applyMiddleware_omitted_policy {χ β θ π : Type}
    (server : ServerState θ π) (reg : ServerRegistration χ β) :
    (reg.cors = .omitted →
      (⟨defaultPath reg.path "/graphql", .cors none⟩ : Registered χ β)
        ∈ (applyMiddleware server reg Host.empty).middlewares) ∧
    (reg.bodyParserConfig = .omitted →
      (⟨defaultPath reg.path "/graphql", .bodyParser none⟩ : Registered χ β)
        ∈ (applyMiddleware server reg Host.empty).middlewares) ∧
    ((StageTag.cors
        ∉ ((applyMiddleware server reg Host.empty).middlewares).map
            (fun r => r.kind.tag)) ↔ reg.cors = .boolFalse) ∧
    ((StageTag.bodyParser
        ∉ ((applyMiddleware server reg Host.empty).middlewares).map
            (fun r => r.kind.tag)) ↔ reg.bodyParserConfig = .boolFalse) := by
  have hm : (applyMiddleware server reg Host.empty).middlewares
      = stagesList server reg 0 := by
    rw [applyMiddleware_eq_append]
    simp [Host.empty]
  refine ⟨?_, ?_, ?_, ?_⟩
  · intro h
    rw [hm]
    simp [stagesList, corsSegment, h]
  · intro h
    rw [hm]
    simp [stagesList, bodyParserSegment, h]
  · rw [hm]
    simp only [stagesList, List.map_append, List.mem_append,
      mem_map_tag_healthSegment, mem_map_tag_corsSegment,
      mem_map_tag_bodyParserSegment, mem_map_tag_uploadsSegment,
      mem_map_tag_playgroundSegment, List.map_cons, List.map_nil,
      List.mem_singleton]
    simp [StageKind.tag, not_ne_iff]
  · rw [hm]
    simp only [stagesList, List.map_append, List.mem_append,
      mem_map_tag_healthSegment, mem_map_tag_corsSegment,
      mem_map_tag_bodyParserSegment, mem_map_tag_uploadsSegment,
      mem_map_tag_playgroundSegment, List.map_cons, List.map_nil,
      List.mem_singleton]
    simp [StageKind.tag, not_ne_iff]

/-- Witness for C10: with both settings omitted, both middleware stages
are registered with `none` as their options. -/
theorem applyMiddleware_omitted_policy_witness :
    (⟨"/graphql", .cors none⟩ : Registered Unit Unit)
      ∈ (applyMiddleware (χ := Unit) (β := Unit) (θ := Unit) (π := Unit)
          { uploadsConfig := none, playgroundOptions := none,
            subscriptionsPath := none }
          { path := none, playgroundPath := none, cors := .omitted,
            bodyParserConfig := .omitted, onHealthCheck := false,
            disableHealthCheck := false }
          Host.empty).middlewares ∧
    (⟨"/graphql", .bodyParser none⟩ : Registered Unit Unit)
      ∈ (applyMiddleware (χ := Unit) (β := Unit) (θ := Unit) (π := Unit)
          { uploadsConfig := none, playgroundOptions := none,
            subscriptionsPath := none }
          { path := none, playgroundPath := none, cors := .omitted,
            bodyParserConfig := .omitted, onHealthCheck := false,
            disableHealthCheck := false }
          Host.empty).middlewares :=
  ⟨(applyMiddleware_omitted_policy (χ := Unit) (β := Unit) (θ := Unit)
      (π := Unit)
      { uploadsConfig := none, playgroundOptions := none,
        subscriptionsPath := none }
      { path := none, playgroundPath := none, cors := .omitted,
        bodyParserConfig := .omitted, onHealthCheck := false,
        disableHealthCheck := false }).1 rfl,
   (applyMiddleware_omitted_policy (χ := Unit) (β := Unit) (θ := Unit)
      (π := Unit)
      { uploadsConfig := none, playgroundOptions := none,
        subscriptionsPath := none }
      { path := none, playgroundPath := none, cors := .omitted,
        bodyParserConfig := .omitted, onHealthCheck := false,
        disableHealthCheck := false }).2.1 rfl⟩

/-- C8: when playground options are configured and the playground path
differs from the execution path, a handler is registered, path-gated on
the playground path, that on every request — whatever the method and
accept header — sets content-type `text/html`, renders the playground
page as the body, and never calls the continuation. -/
theorem playgroundHandler_registration {χ β θ π : Type}
    (server : ServerState θ π) (reg : ServerRegistration χ β)
    (hpg : server.playgroundOptions.isSome = true)
    (hne : defaultPath reg.path "/graphql"
      ≠ defaultPath reg.playgroundPath (defaultPath reg.path "/graphql")) :
    (⟨defaultPath reg.playgroundPath (defaultPath reg.path "/graphql"),
        .playgroundHandler⟩ : Registered χ β)
      ∈ (applyMiddleware server reg Host.empty).middlewares ∧
    ∀ (opts : PGRenderOptions π) (ctx : Ctx),
      playgroundHandler opts ctx
        = { contentType := "text/html", body := renderPlaygroundPage opts,
            nextCalled := false } := by
  constructor
  · have hm : (applyMiddleware server reg Host.empty).middlewares
        = stagesList server reg 0 := by
      rw [applyMiddleware_eq_append]
      simp [Host.empty]
    rw [hm]
    simp [stagesList, playgroundSegment, hpg, hne]
  · intro opts ctx
    rfl

/-- Witness for C8: playground path `/playground` differing from
`/graphql`, with a POST request whose accept list ranks JSON first: the
handler is registered at `/playground` and still renders the page
without calling the continuation. -/
theorem playgroundHandler_registration_witness :
    (⟨"/playground", .playgroundHandler⟩ : Registered Unit Unit)
      ∈ (applyMiddleware (χ := Unit) (β := Unit) (θ := Unit) (π := Unit)
          { uploadsConfig := none, playgroundOptions := some (),
            subscriptionsPath := none }
          { path := none, playgroundPath := some "/playground",
            cors := .omitted, bodyParserConfig := .omitted,
            onHealthCheck := false, disableHealthCheck := false }
          Host.empty).middlewares ∧
    playgroundHandler (π := Unit) ⟨"/graphql", none, ()⟩
        { path := "/playground", method := "POST",
          acceptTypes := ["application/json"] }
      = { contentType := "text/html",
          body := renderPlaygroundPage ⟨"/graphql", none, ()⟩,
          nextCalled := false } :=
  ⟨(playgroundHandler_registration (χ := Unit) (β := Unit) (θ := Unit)
      (π := Unit)
      { uploadsConfig := none, playgroundOptions := some (),
        subscriptionsPath := none }
      { path := none, playgroundPath := some "/playground",
        cors := .omitted, bodyParserConfig := .omitted,
        onHealthCheck := false, disableHealthCheck := false }
      rfl (by decide)).1,
   (playgroundHandler_registration (χ := Unit) (β := Unit) (θ := Unit)
      (π := Unit)
      { uploadsConfig := none, playgroundOptions := some (),
        subscriptionsPath := none }
      { path := none, playgroundPath := some "/playground",
        cors := .omitted, bodyParserConfig := .omitted,
        onHealthCheck := false, disableHealthCheck := false }
      rfl (by decide)).2 ⟨"/graphql", none, ()⟩
     { path := "/playground", method := "POST",
       acceptTypes := ["application/json"] }⟩

end ApolloServerKoa
